import Mathlib

/-!
Verification of the core logic of the rekaprgu-3duta reporting dashboard:
the transaction classifier (src/services/data_service.py) and the audit
queue engine (src/services/audit.py), shallowly embedded in Lean 4.
-/

namespace Rekap

/-! ## Classifier: fetch_and_process_data (src/services/data_service.py) -/

/-- A raw transaction row. The SQL query filters on `kode_produk` but selects
only `tujuan, status, sn, tgl_status`; we keep `kode_produk` on the record
because the spec's TransactionRecord carries it, although the code's dataframe
drops it. `sn` is `Option String`: `none` models a SQL NULL (pandas NaN). -/
structure Row where
  kode_produk : String
  tujuan : String
  status : Int
  sn : Option String
  deriving Repr, DecidableEq

/-- Python str.startswith, character by character. -/
def charsStartWith : List Char → List Char → Bool
  | _, [] => true
  | [], _ :: _ => false
  | a :: as, b :: bs => a == b && charsStartWith as bs

/-- Python `s.startswith(pre)` on strings. -/
def pyStartsWith (s pre : String) : Bool := charsStartWith s.toList pre.toList

/-- Embeds `df["sn"].str.startswith("SUP", na=False)`: NaN counts as false. -/
def snStartsWithSUP : Option String → Bool
  | some s => pyStartsWith s "SUP"
  | none => false

/-- Embeds lines 52-58 of data_service.py: default label "GAGAL",
`mask_valid = (status == 20) & startswith`, `mask_wait = (status == 20) & ~startswith`. -/
def status_label (r : Row) : String :=
  if r.status == 20 && snStartsWithSUP r.sn then "SUKSES VALID"
  else if r.status == 20 && !snStartsWithSUP r.sn then "SUKSES WAIT"
  else "GAGAL"

/-- Count of rows of the `tujuan`-group of `t` labeled "SUKSES VALID"
(`(group["status_label"] == "SUKSES VALID").sum()`). -/
def validCount (rows : List Row) (t : String) : Nat :=
  (rows.filter (fun r => r.tujuan == t && status_label r == "SUKSES VALID")).length

/-- Count of rows of the `tujuan`-group of `t` labeled "SUKSES WAIT". -/
def waitCount (rows : List Row) (t : String) : Nat :=
  (rows.filter (fun r => r.tujuan == t && status_label r == "SUKSES WAIT")).length

/-- Embeds lines 61-77 of data_service.py: the per-group business rule.
Default "GAGAL A1"; the groupby loop overrides the whole group at once, so the
final status of any row is a function of its group's (valid, wait) counts. -/
def final_status_for (rows : List Row) (t : String) : String :=
  let valid := validCount rows t
  let wait := waitCount rows t
  if valid == 1 then "SUKSES PROFIT"
  else if 1 < valid then "SUKSES LOSS"
  else if valid == 0 && 0 < wait then "SUKSES PROFIT"
  else "GAGAL A1"

/-- A row enriched with the two derived columns. -/
structure LabeledRow extends Row where
  label : String
  final : String
  deriving Repr, DecidableEq

/-- Embeds the labeling part of `fetch_and_process_data`: every row gets its
row-level `status_label` and the broadcast `final_status` of its `tujuan` group. -/
def fetch_and_process_data (rows : List Row) : List LabeledRow :=
  rows.map (fun r =>
    { toRow := r, label := status_label r, final := final_status_for rows r.tujuan })

/-! ## JSON values and Python dict/truthiness semantics -/

/-- A JSON value, as produced by `response.json()`. -/
inductive Json where
  | null
  | str (s : String)
  | num (n : Int)
  | bool (b : Bool)
  | arr (xs : List Json)
  | obj (fields : List (String × Json))

/-- First binding of `key` in an object's field list (Python dicts have unique
keys, so first-match lookup is faithful). -/
def lookupField : List (String × Json) → String → Option Json
  | [], _ => none
  | (k, v) :: rest, key => if k == key then some v else lookupField rest key

/-- Python `d.get(key, default)`: the stored value (possibly null) when the key
is present, the default when it is absent. -/
def jGetD (fields : List (String × Json)) (key : String) (d : Json) : Json :=
  match lookupField fields key with
  | some v => v
  | none => d

/-- Python truthiness of a JSON value (`bool(x)`). -/
def pyTruthy : Json → Bool
  | .null => false
  | .str s => !s.isEmpty
  | .num n => n != 0
  | .bool b => b
  | .arr xs => !xs.isEmpty
  | .obj fs => !fs.isEmpty

/-- Python substring test `needle in hay`, character by character. -/
def charsContain : List Char → List Char → Bool
  | [], needle => needle.isEmpty
  | a :: t, needle => charsStartWith (a :: t) needle || charsContain t needle

/-- Python `needle in hay` on strings. -/
def pyContains (hay needle : String) : Bool := charsContain hay.toList needle.toList

/-- Python `s.lower()` (ASCII case folding suffices for the identifiers used). -/
def pyLower (s : String) : String := String.mk (s.toList.map Char.toLower)

/-! ## parse_api_response (src/services/audit.py lines 190-236)

Fallible evaluation is modeled with `Option`: `none` is a raised Python
exception (caught by the caller's generic `except Exception`). -/

/-- Embeds line 195-196: normalize a leading "62" country code to "0"; the
`isinstance(msisdn, str)` guard passes non-strings through untouched. -/
def normalizeMsisdn : Json → Json
  | .str s => if pyStartsWith s "62" then .str ("0" ++ s.drop 2) else .str s
  | j => j

/-- Embeds line 205, `response_json.get("Services", []) or []`: a falsy value
(null, empty list/str/obj, 0, false) degrades to the empty list; a truthy
non-list raises once iterated (strings yield chars and dicts yield string keys,
and `.get` on either raises). -/
def servicesList (fields : List (String × Json)) : Option (List Json) :=
  let sv := jGetD fields "Services" (.arr [])
  if pyTruthy sv then
    match sv with
    | .arr xs => some xs
    | _ => none
  else some []

/-- The six card/package fields accumulated by the service loop, all
initialized to Python `None` (line 202). -/
structure ServiceAcc where
  kartu : Option String
  act_kartu : Option Json
  end_kartu : Option Json
  paket : Option String
  act_paket : Option Json
  end_paket : Option Json

/-- Embeds one iteration of the service loop (lines 206-217): a non-dict entry
or a non-string `packagename` raises; a case-insensitive substring match on
either identifier overwrites the corresponding fields (last match wins). -/
def stepFields (identifier_kartu identifier_paket : String) (acc : ServiceAcc)
    (sf : List (String × Json)) : Option ServiceAcc :=
  match jGetD sf "packagename" (.str "") with
  | .str package_name =>
    let acc1 :=
      if pyContains (pyLower package_name) (pyLower identifier_kartu) then
        { acc with kartu := some package_name,
                   act_kartu := some (jGetD sf "activationdate" (.str "")),
                   end_kartu := some (jGetD sf "enddate" (.str "")) }
      else acc
    let acc2 :=
      if pyContains (pyLower package_name) (pyLower identifier_paket) then
        { acc1 with paket := some package_name,
                    act_paket := some (jGetD sf "activationdate" (.str "")),
                    end_paket := some (jGetD sf "enddate" (.str "")) }
      else acc1
    some acc2
  | _ => none

/-- The loop body on an arbitrary entry: a non-dict entry raises at `.get`. -/
def stepService (identifier_kartu identifier_paket : String) (acc : ServiceAcc)
    (service : Json) : Option ServiceAcc :=
  match service with
  | .obj sf => stepFields identifier_kartu identifier_paket acc sf
  | _ => none

/-- The whole service loop. -/
def foldServices (identifier_kartu identifier_paket : String) :
    ServiceAcc → List Json → Option ServiceAcc
  | acc, [] => some acc
  | acc, s :: rest =>
    match stepService identifier_kartu identifier_paket acc s with
    | some a => foldServices identifier_kartu identifier_paket a rest
    | none => none

/-- The dictionary returned by `parse_api_response` (lines 224-236). -/
structure ParsedData where
  nomor : Json
  kartu : Option String
  act_kartu : Option Json
  end_kartu : Option Json
  paket : Option String
  act_paket : Option Json
  end_paket : Option Json
  balance : Json
  expiry_date : Json
  activation_date : Json
  status_info : Json

/-- Embeds `parse_api_response`. A non-object response raises at the first
`.get`; `statusinfo` defaults to an empty dict when ABSENT, but a present
non-dict value (for example null) raises at `status_info.get(...)` because,
unlike `Services`, it has no `or {}` guard. -/
def parse_fields (fields : List (String × Json))
    (identifier_kartu identifier_paket : String) : Option ParsedData :=
  let msisdn := normalizeMsisdn (jGetD fields "msisdn" (.str ""))
  let balance := jGetD fields "custbalanceinfo" (.str "0")
  match servicesList fields with
  | some services =>
    match foldServices identifier_kartu identifier_paket
        ⟨none, none, none, none, none, none⟩ services with
    | some acc =>
      match jGetD fields "statusinfo" (.obj []) with
      | .obj sfields =>
        some { nomor := msisdn, kartu := acc.kartu, act_kartu := acc.act_kartu,
               end_kartu := acc.end_kartu, paket := acc.paket,
               act_paket := acc.act_paket, end_paket := acc.end_paket,
               balance := balance,
               expiry_date := jGetD sfields "expirydate" (.str ""),
               activation_date := jGetD sfields "activationdate" (.str ""),
               status_info := .obj sfields }
      | _ => none
    | none => none
  | none => none

/-- Embeds `parse_api_response` proper: a non-object response (a list, a
scalar) raises at the first `.get`. -/
def parse_api_response (response_json : Json)
    (identifier_kartu identifier_paket : String) : Option ParsedData :=
  match response_json with
  | .obj fields => parse_fields fields identifier_kartu identifier_paket
  | _ => none

/-- A `packagename` value the loop body survives: a string (or absent,
defaulting to ""). -/
def packagenameOk (sf : List (String × Json)) : Bool :=
  match jGetD sf "packagename" (.str "") with
  | .str _ => true
  | _ => false

/-- A Services entry on which the service loop cannot raise: a JSON object
whose `packagename` is a string (or absent, defaulting to ""). -/
def serviceEntryOk : Json → Bool
  | .obj sf => packagenameOk sf
  | _ => false

/-- A `Services` field the parser survives: absent, an array of survivable
entries, or any falsy value (which `or []` degrades to the empty list). -/
def servicesFieldOk (fields : List (String × Json)) : Bool :=
  match lookupField fields "Services" with
  | none => true
  | some (.arr xs) => xs.all serviceEntryOk
  | some sv => !pyTruthy sv

/-- A `statusinfo` field the parser survives: absent or an object. A present
null (or any other non-object) raises at `status_info.get(...)`. -/
def statusinfoFieldOk (fields : List (String × Json)) : Bool :=
  match lookupField fields "statusinfo" with
  | none => true
  | some (.obj _) => true
  | some _ => false

/-! ## _check_single_number (src/services/audit.py lines 115-188) -/

/-- One outbound `requests.get(api_url, params=..., timeout=...)` call. -/
structure Request where
  username : String
  toNum : String
  timeoutSecs : Nat
  deriving Repr, DecidableEq

/-- The behavior of the main `requests.get` call, as seen by the caller:
a raised timeout / connection error / other request error / non-requests
exception, or a response with a status code and a body (`none` = the body
fails JSON parsing). -/
inductive HttpResult where
  | timeout
  | connError
  | reqError (msg : String)
  | otherExc (msg : String)
  | ok (statusCode : Nat) (body : Option Json)

/-- The structured outcome dict appended to the results list. On success the
dict is the parsed data itself (so `nomor` is the normalized MSISDN); every
other path keeps the input phone number. -/
structure CheckOutcome where
  nomor : Json
  status : String
  error : Option String
  message : Option String
  parsed : Option ParsedData

/-- Embeds `_check_single_number`, returning the outcome together with the
trace of outbound requests it issued. `reachable` is the verdict of the
`check_api_reachability` pre-check, whose ping (params `{username, to: "TEST"}`,
timeout 10) is always the first request; the main request (params
`{username, to: phone_number}`, timeout 30) is issued only after the pre-check
passes. The error string of the unexpected-exception paths is Python's
`str(e)`, carried here as the abstract message of the fault. -/
def check_single_number (phone_number identifier_kartu identifier_paket username : String)
    (reachable : Bool) (resp : HttpResult) : CheckOutcome × List Request :=
  let ping : Request := ⟨username, "TEST", 10⟩
  if !reachable then
    ({ nomor := .str phone_number, status := "skipped", error := some "API unreachable",
       message := some "Cannot reach API endpoint", parsed := none }, [ping])
  else
    let mainReq : Request := ⟨username, phone_number, 30⟩
    let trace := [ping, mainReq]
    match resp with
    | .timeout =>
      ({ nomor := .str phone_number, status := "skipped", error := some "Request timeout",
         message := some "Request timed out after 30 seconds", parsed := none }, trace)
    | .connError =>
      ({ nomor := .str phone_number, status := "skipped", error := some "Connection error",
         message := some "Failed to connect to API", parsed := none }, trace)
    | .reqError m =>
      ({ nomor := .str phone_number, status := "skipped", error := some m,
         message := some "Request failed", parsed := none }, trace)
    | .otherExc m =>
      ({ nomor := .str phone_number, status := "api_error", error := some m,
         message := some "Unexpected error", parsed := none }, trace)
    | .ok statusCode body =>
      if statusCode != 200 then
        ({ nomor := .str phone_number, status := "skipped",
           error := some ("HTTP " ++ toString statusCode),
           message := some "Invalid HTTP status", parsed := none }, trace)
      else
        match body with
        | none =>
          ({ nomor := .str phone_number, status := "skipped",
             error := some "Invalid JSON response",
             message := some "JSON parsing failed", parsed := none }, trace)
        | some j =>
          match parse_api_response j identifier_kartu identifier_paket with
          | some pd =>
            ({ nomor := pd.nomor, status := "success", error := none,
               message := none, parsed := some pd }, trace)
          | none =>
            ({ nomor := .str phone_number, status := "api_error",
               error := some "exception raised while parsing the response",
               message := some "Unexpected error", parsed := none }, trace)

/-- Count of main-check requests in a trace: timeout 30 and params
`{username, to: phone_number}`. -/
def mainRequestCount (reqs : List Request) (username phone_number : String) : Nat :=
  (reqs.filter (fun r =>
    r.username == username && r.toNum == phone_number && r.timeoutSecs == 30)).length

/-! ## AuditQueueManager state and bookkeeping (src/services/audit.py) -/

/-- The mutable fields of `AuditQueueManager` (lines 14-24). -/
structure EngineState where
  delay_seconds : Nat
  max_queue : Nat
  queue : List String
  results : List CheckOutcome
  is_running : Bool
  is_paused : Bool
  processed_count : Nat
  error_count : Nat
  skip_count : Nat

/-- Embeds `__init__(delay_seconds, max_queue)`. -/
def initEngine (delay_seconds max_queue : Nat) : EngineState :=
  ⟨delay_seconds, max_queue, [], [], false, false, 0, 0, 0⟩

/-- Embeds `add_to_queue` (lines 26-32): `queue.put(timeout=1)` succeeds iff a
slot is free within the bounded wait (none frees up while the worker is paused);
the Full exception is caught and turned into `false`, so the call never raises
and never blocks past the timeout. -/
def add_to_queue (s : EngineState) (phone_number : String) : EngineState × Bool :=
  if s.queue.length < s.max_queue then
    ({ s with queue := s.queue ++ [phone_number] }, true)
  else (s, false)

/-- Embeds the bookkeeping of one worker iteration after `_check_single_number`
returns (lines 73-80, and the `except` path 83-92 whose queue_error outcome
falls into the final `else` bucket): append the outcome and increment exactly
one of the three counters according to its status. -/
def observe_result (s : EngineState) (r : CheckOutcome) : EngineState :=
  if r.status == "success" then
    { s with results := s.results ++ [r], processed_count := s.processed_count + 1 }
  else if r.status == "skipped" then
    { s with results := s.results ++ [r], skip_count := s.skip_count + 1 }
  else
    { s with results := s.results ++ [r], error_count := s.error_count + 1 }

/-! ## get_summary_table (src/services/data_service.py lines 82-96) -/

/-- Distinct values in first-occurrence order (pandas sorts group keys; key
order is presentational and abstracted here). -/
def distinctKeys {α : Type} [BEq α] (l : List α) : List α :=
  l.foldl (fun acc a => if acc.contains a then acc else acc ++ [a]) []

/-- The row keys of the summary: the distinct `tujuan` values. -/
def summaryKeys (rows : List LabeledRow) : List String :=
  distinctKeys (rows.map (fun r => r.tujuan))

/-- The columns of the summary: the distinct `final_status` values. -/
def summaryCols (rows : List LabeledRow) : List String :=
  distinctKeys (rows.map (fun r => r.final))

/-- One cell: the number of rows with the given `tujuan` and `final_status`
(`groupby(["tujuan", "final_status"]).size()`, with `unstack(fill_value=0)`
filling the absent combinations with 0). -/
def summaryCell (rows : List LabeledRow) (t st : String) : Nat :=
  (rows.filter (fun r => r.tujuan == t && r.final == st)).length

/-- Embeds `get_summary_table`: one row per distinct `tujuan`, one column per
distinct `final_status`, cells = counts; the empty dataframe maps to the empty
table. The grouping key is `tujuan` alone: `kode_produk` is not a column of
the dataframe (the SQL query only filters on it). -/
def get_summary_table (rows : List LabeledRow) : List (String × List (String × Nat)) :=
  (summaryKeys rows).map (fun t => (t, (summaryCols rows).map (fun st => (st, summaryCell rows t st))))

/-! ## Sample data for witnesses -/

/-- Two transactions to one destination: one valid success, one waiting success. -/
def rowsW : List Row :=
  [⟨"PX", "D1", 20, some "SUP123"⟩, ⟨"PX", "D1", 20, some "AB"⟩]

/-- The labeled form of the first sample row. -/
def lrW1 : LabeledRow :=
  ⟨⟨"PX", "D1", 20, some "SUP123"⟩, "SUKSES VALID", "SUKSES PROFIT"⟩

/-- The labeled form of the second sample row. -/
def lrW2 : LabeledRow :=
  ⟨⟨"PX", "D1", 20, some "AB"⟩, "SUKSES WAIT", "SUKSES PROFIT"⟩

/-- Two labeled records that differ only in product code. -/
def lrA : LabeledRow := ⟨⟨"PA", "D1", 20, some "SUP1"⟩, "SUKSES VALID", "SUKSES PROFIT"⟩

/-- Second labeled record for the summary counterexample. -/
def lrB : LabeledRow := ⟨⟨"PB", "D1", 20, some "XX"⟩, "SUKSES WAIT", "SUKSES PROFIT"⟩

/-- A successful outcome for counter bookkeeping witnesses. -/
def outSuccess : CheckOutcome :=
  { nomor := .str "081", status := "success", error := none, message := none, parsed := none }

/-- A skipped outcome for counter bookkeeping witnesses. -/
def outSkipped : CheckOutcome :=
  { nomor := .str "082", status := "skipped", error := some "Request timeout",
    message := some "Request timed out after 30 seconds", parsed := none }

/-- A paused engine whose queue holds `max_queue` items. -/
def engineFull : EngineState :=
  ⟨30, 2, ["081", "082"], [], true, true, 0, 0, 0⟩

end Rekap

namespace Rekap

/-! ## Theorems for claims C1, C2, C3 -/

/-- C1: the derived status_label is "SUKSES VALID" iff status_code is 20 and the
serial is non-null and starts with "SUP"; "SUKSES WAIT" iff status_code is 20 and
the serial does not start with "SUP" (including null serial); "GAGAL" iff
status_code is not 20, regardless of serial. -/
theorem C1_status_label (r : Row) :
    (status_label r = "SUKSES VALID" ↔
      (r.status = 20 ∧ ∃ s, r.sn = some s ∧ pyStartsWith s "SUP" = true)) ∧
    (status_label r = "SUKSES WAIT" ↔
      (r.status = 20 ∧ ¬ ∃ s, r.sn = some s ∧ pyStartsWith s "SUP" = true)) ∧
    (status_label r = "GAGAL" ↔ r.status ≠ 20) := by
  have hsn : snStartsWithSUP r.sn = true ↔ ∃ s, r.sn = some s ∧ pyStartsWith s "SUP" = true := by
    cases h : r.sn with
    | none => simp [snStartsWithSUP]
    | some s => simp [snStartsWithSUP]
  unfold status_label
  by_cases h20 : r.status = 20 <;> by_cases hs : snStartsWithSUP r.sn = true <;>
    simp_all

/-- Helper: the per-group rule case by case, directly on `final_status_for`. -/
theorem final_status_for_cases (rows : List Row) (t : String) :
    (validCount rows t = 1 → final_status_for rows t = "SUKSES PROFIT") ∧
    (1 < validCount rows t → final_status_for rows t = "SUKSES LOSS") ∧
    (validCount rows t = 0 → 0 < waitCount rows t → final_status_for rows t = "SUKSES PROFIT") ∧
    (validCount rows t = 0 → waitCount rows t = 0 → final_status_for rows t = "GAGAL A1") := by
  unfold final_status_for
  refine ⟨fun h1 => ?_, fun h1 => ?_, fun h1 h2 => ?_, fun h1 h2 => ?_⟩
  · simp [h1]
  · have hne : validCount rows t ≠ 1 := by omega
    simp [hne, h1]
  · simp [h1, Nat.ne_of_gt h2, h2]
  · simp [h1, h2]

/-- C2: for every destination group, with valid and wait the counts of
"SUKSES VALID" and "SUKSES WAIT" labels in the group: valid = 1 gives every row of
the group final status "SUKSES PROFIT"; valid > 1 gives "SUKSES LOSS"; valid = 0
with wait > 0 gives "SUKSES PROFIT"; valid = 0 and wait = 0 gives "GAGAL A1"
(a total function of (valid, wait): the four cases are exhaustive). -/
theorem C2_final_status_rule (rows : List Row) (t : String) (lr : LabeledRow)
    (hmem : lr ∈ fetch_and_process_data rows) (ht : lr.tujuan = t) :
    (validCount rows t = 1 → lr.final = "SUKSES PROFIT") ∧
    (1 < validCount rows t → lr.final = "SUKSES LOSS") ∧
    (validCount rows t = 0 → 0 < waitCount rows t → lr.final = "SUKSES PROFIT") ∧
    (validCount rows t = 0 → waitCount rows t = 0 → lr.final = "GAGAL A1") := by
  obtain ⟨r, _, rfl⟩ := List.mem_map.mp hmem
  have ht2 : r.tujuan = t := ht
  subst ht2
  exact final_status_for_cases rows r.tujuan

/-- C3: the broadcast invariant: any two rows of the labeled output that share
the same destination receive the identical final_status. -/
theorem C3_broadcast (rows : List Row) (a b : LabeledRow)
    (ha : a ∈ fetch_and_process_data rows) (hb : b ∈ fetch_and_process_data rows)
    (hab : a.tujuan = b.tujuan) : a.final = b.final := by
  obtain ⟨ra, _, rfl⟩ := List.mem_map.mp ha
  obtain ⟨rb, _, rfl⟩ := List.mem_map.mp hb
  simp only at hab ⊢
  rw [hab]


/-! ## Theorems for claims C4 and C5 -/

/-- Every character list starts with itself. -/
theorem charsStartWith_self (l : List Char) : charsStartWith l l = true := by
  induction l with
  | nil => rfl
  | cons a t ih => simp [charsStartWith, ih]

/-- A string contains its own suffix. -/
theorem charsContain_append (a b : List Char) : charsContain (a ++ b) b = true := by
  induction a with
  | nil =>
    cases b with
    | nil => rfl
    | cons c t => simp [charsContain, charsStartWith_self]
  | cons x xs ih => simp [charsContain, ih]

/-- Python substring test: `b in a + b` always holds. -/
theorem pyContains_append (a b : String) : pyContains (a ++ b) b = true := by
  unfold pyContains
  simp only [String.toList, String.data_append]
  exact charsContain_append a.data b.data

/-- C4: once the reachability pre-check has passed, the outcome classification
of _check_single_number is: non-200 HTTP status gives a "skipped" outcome whose
error detail contains the decimal status code; an unparsable JSON body gives
"skipped"; a timeout or a connection failure gives "skipped"; HTTP 200 with
parsable JSON whose parsing raises no fault gives "success"; any other
unexpected fault (a non-requests exception, or an exception raised while
parsing the 200 response) gives "api_error", which differs from "skipped". -/
theorem C4_check_outcomes (ph ik ip u : String) :
    (∀ code body, code ≠ 200 →
      (check_single_number ph ik ip u true (.ok code body)).1.status = "skipped" ∧
      ∃ e, (check_single_number ph ik ip u true (.ok code body)).1.error = some e ∧
        pyContains e (toString code) = true) ∧
    ((check_single_number ph ik ip u true (.ok 200 none)).1.status = "skipped") ∧
    ((check_single_number ph ik ip u true .timeout).1.status = "skipped") ∧
    ((check_single_number ph ik ip u true .connError).1.status = "skipped") ∧
    (∀ j pd, parse_api_response j ik ip = some pd →
      (check_single_number ph ik ip u true (.ok 200 (some j))).1.status = "success") ∧
    (∀ m, (check_single_number ph ik ip u true (.otherExc m)).1.status = "api_error") ∧
    (∀ j, parse_api_response j ik ip = none →
      (check_single_number ph ik ip u true (.ok 200 (some j))).1.status = "api_error") ∧
    "api_error" ≠ "skipped" := by
  refine ⟨fun code body hc => ?_, ?_, ?_, ?_, fun j pd hp => ?_, fun m => ?_, fun j hp => ?_, by decide⟩
  · have hbne : (code != 200) = true := by simpa using hc
    cases body <;>
      exact ⟨by simp [check_single_number, hbne],
        "HTTP " ++ toString code, by simp [check_single_number, hbne], pyContains_append _ _⟩
  · simp [check_single_number]
  · simp [check_single_number]
  · simp [check_single_number]
  · simp [check_single_number, hp]
  · simp [check_single_number]
  · simp [check_single_number, hp]

/-- Witness for C4: an HTTP 500 response after a successful pre-check gives a
"skipped" outcome whose error detail contains "500". -/
theorem C4_check_outcomes_witness :
    (check_single_number "081" "k" "p" "u" true (.ok 500 none)).1.status = "skipped" ∧
    ∃ e, (check_single_number "081" "k" "p" "u" true (.ok 500 none)).1.error = some e ∧
      pyContains e (toString 500) = true :=
  (C4_check_outcomes "081" "k" "p" "u").1 500 none (by decide)

/-- C5 counterexample: when the reachability pre-check fails, the operation
issues no request at all with the parameters {username, to: number} and the
30-second timeout, refuting "every invocation issues exactly one such request". -/
theorem C5_counterexample :
    ¬ mainRequestCount
        (check_single_number "0812" "k" "p" "user" false (.ok 200 none)).2
        "user" "0812" = 1 := by decide

/-- C5 amended: the number of 30-second-timeout requests carrying
{username, to: number} is one exactly when the reachability pre-check passes
and zero when it fails, and in every invocation the first outbound request is
the pre-check ping {username, to: "TEST"} with a 10-second timeout. -/
theorem C5_request_discipline (ph ik ip u : String) (reachable : Bool) (resp : HttpResult) :
    mainRequestCount (check_single_number ph ik ip u reachable resp).2 u ph =
      (if reachable then 1 else 0) ∧
    (check_single_number ph ik ip u reachable resp).2.head? =
      some ⟨u, "TEST", 10⟩ := by
  cases reachable with
  | false => simp [check_single_number, mainRequestCount, List.filter]
  | true =>
    cases resp with
    | ok code body =>
      by_cases h : (code != 200) = true
      · cases body <;> simp [check_single_number, mainRequestCount, List.filter, h]
      · cases body with
        | none => simp [check_single_number, mainRequestCount, List.filter, h]
        | some j =>
          cases hp : parse_api_response j ik ip <;>
            simp [check_single_number, mainRequestCount, List.filter, h, hp]
    | _ => simp [check_single_number, mainRequestCount, List.filter]

/-- Witness for C5 amended: with a reachable endpoint and a timed-out main
request, exactly one {username, to: number} 30-second request is issued, and
the ping comes first. -/
theorem C5_request_discipline_witness :
    mainRequestCount (check_single_number "0812" "k" "p" "user" true .timeout).2
      "user" "0812" = (if true then 1 else 0) ∧
    (check_single_number "0812" "k" "p" "user" true .timeout).2.head? =
      some ⟨"user", "TEST", 10⟩ :=
  C5_request_discipline "0812" "k" "p" "user" true .timeout


/-! ## Theorems for claims C6, C7, C8 -/

/-- C6: the counter invariant of the audit queue engine: starting from any
state in which processed + skipped + errored equals the number of results,
after the worker observes any sequence of K further outcomes the three
counters again sum to the length of the results list, which has grown by
exactly K. In particular, from the initial state, after K items
processed + skipped + errored = K = len(results). -/
theorem C6_counter_invariant (outcomes : List CheckOutcome) (s0 : EngineState)
    (h : s0.processed_count + s0.skip_count + s0.error_count = s0.results.length) :
    (outcomes.foldl observe_result s0).processed_count +
      (outcomes.foldl observe_result s0).skip_count +
      (outcomes.foldl observe_result s0).error_count =
      (outcomes.foldl observe_result s0).results.length ∧
    (outcomes.foldl observe_result s0).results.length =
      s0.results.length + outcomes.length := by
  induction outcomes generalizing s0 with
  | nil => simpa using h
  | cons o rest ih =>
    have hstep : (observe_result s0 o).processed_count + (observe_result s0 o).skip_count +
        (observe_result s0 o).error_count = (observe_result s0 o).results.length ∧
        (observe_result s0 o).results.length = s0.results.length + 1 := by
      unfold observe_result
      by_cases h1 : (o.status == "success") = true
      · constructor <;> (simp [h1]; try omega)
      · by_cases h2 : (o.status == "skipped") = true
        · constructor <;> (simp [h1, h2]; try omega)
        · constructor <;> (simp [h1, h2]; try omega)
    obtain ⟨ih1, ih2⟩ := ih (observe_result s0 o) hstep.1
    refine ⟨by simpa using ih1, ?_⟩
    simp only [List.foldl_cons, List.length_cons]
    have h2 := hstep.2
    omega

/-- Witness for C6: from the initial engine state, observing one success and
one skipped outcome leaves the counters summing to 2 = len(results). -/
theorem C6_counter_invariant_witness :
    ([outSuccess, outSkipped].foldl observe_result (initEngine 30 10)).processed_count +
      ([outSuccess, outSkipped].foldl observe_result (initEngine 30 10)).skip_count +
      ([outSuccess, outSkipped].foldl observe_result (initEngine 30 10)).error_count =
      ([outSuccess, outSkipped].foldl observe_result (initEngine 30 10)).results.length ∧
    ([outSuccess, outSkipped].foldl observe_result (initEngine 30 10)).results.length =
      (initEngine 30 10).results.length + [outSuccess, outSkipped].length :=
  C6_counter_invariant [outSuccess, outSkipped] (initEngine 30 10) rfl

/-- C7: add_to_queue succeeds exactly when a slot is free: it returns true iff
the queue holds fewer than max_queue items (and then the item is appended),
returns false otherwise leaving the state unchanged, and in particular returns
false once max_queue items are pending; being a total function, it neither
raises nor blocks indefinitely. -/
theorem C7_add_to_queue (s : EngineState) (ph : String) :
    ((add_to_queue s ph).2 = true ↔ s.queue.length < s.max_queue) ∧
    ((add_to_queue s ph).2 = true → (add_to_queue s ph).1.queue = s.queue ++ [ph]) ∧
    ((add_to_queue s ph).2 = false → (add_to_queue s ph).1 = s) ∧
    (s.queue.length = s.max_queue → (add_to_queue s ph).2 = false) := by
  unfold add_to_queue
  by_cases h : s.queue.length < s.max_queue <;> (simp [h]; try omega)

/-- Witness for C7: a paused engine with capacity 2 and two pending items
rejects a third enqueue. -/
theorem C7_add_to_queue_witness : (add_to_queue engineFull "083").2 = false :=
  (C7_add_to_queue engineFull "083").2.2.2 (by decide)

/-- C8 counterexample: two labeled records that share a destination but differ
in product code collapse to a single summary row, so the table is not keyed by
the pair (product_code, destination): that key has two distinct values here. -/
theorem C8_counterexample :
    (get_summary_table [lrA, lrB]).length = 1 ∧
    lrA.kode_produk ≠ lrB.kode_produk ∧
    (distinctKeys ([lrA, lrB].map (fun r => (r.kode_produk, r.tujuan)))).length = 2 := by
  refine ⟨rfl, by decide, rfl⟩

/-- Projecting the first component back out of a pairing map is the identity. -/
theorem map_fst_pairing {α β : Type} (g : α → β) (l : List α) :
    List.map (Prod.fst ∘ fun t => (t, g t)) l = l := by
  induction l with
  | nil => rfl
  | cons a t ih => simp [ih]

/-- C8 amended: get_summary_table is keyed by destination (tujuan) alone, with
one column per distinct final_status value and each cell the count of records
with that destination and status; the empty input yields the empty table. -/
theorem C8_summary_table (rows : List LabeledRow) :
    ((get_summary_table rows).map Prod.fst = distinctKeys (rows.map (fun r => r.tujuan))) ∧
    (rows = [] → get_summary_table rows = []) ∧
    (∀ t cols, (t, cols) ∈ get_summary_table rows →
      cols.map Prod.fst = distinctKeys (rows.map (fun r => r.final)) ∧
      ∀ st n, (st, n) ∈ cols →
        n = (rows.filter (fun r => r.tujuan == t && r.final == st)).length) := by
  refine ⟨?_, fun h => ?_, fun t cols hmem => ?_⟩
  · rw [get_summary_table, List.map_map]
    exact map_fst_pairing _ _
  · subst h
    rfl
  · obtain ⟨t0, ht0, heq⟩ := List.mem_map.mp hmem
    injection heq with h1 h2
    subst h1
    subst h2
    constructor
    · rw [List.map_map]
      exact map_fst_pairing _ _
    · intro st n hst
      obtain ⟨st0, hst0, heq2⟩ := List.mem_map.mp hst
      injection heq2 with h3 h4
      subst h3
      subst h4
      rfl

/-- Witness for C8 amended: the empty input yields the empty table. -/
theorem C8_summary_table_witness : get_summary_table [] = [] :=
  (C8_summary_table []).2.1 rfl


/-! ## Theorems for claims C9 and C10 -/

/-- C9: whenever the response field msisdn holds a string and parsing succeeds,
the extracted number is "0" followed by the remainder after a leading "62"
prefix, and is the string unchanged when it does not start with "62". -/
theorem C9_msisdn_normalization (fields : List (String × Json)) (ik ip s : String)
    (hm : lookupField fields "msisdn" = some (.str s))
    (pd : ParsedData) (hp : parse_api_response (.obj fields) ik ip = some pd) :
    pd.nomor = if pyStartsWith s "62" = true then Json.str ("0" ++ s.drop 2)
               else Json.str s := by
  have hp2 : parse_fields fields ik ip = some pd := hp
  simp only [parse_fields] at hp2
  split at hp2
  · split at hp2
    · split at hp2
      · injection hp2 with hpd
        subst hpd
        show normalizeMsisdn (jGetD fields "msisdn" (.str "")) = _
        rw [show jGetD fields "msisdn" (.str "") = Json.str s from by simp [jGetD, hm]]
        simp [normalizeMsisdn]
      · exact absurd hp2 (by simp)
    · exact absurd hp2 (by simp)
  · exact absurd hp2 (by simp)

/-- Witness for C9: msisdn "6281234567890" is normalized to "081234567890". -/
theorem C9_msisdn_normalization_witness :
    ∃ pd, parse_api_response (.obj [("msisdn", .str "6281234567890")]) "k" "p" = some pd ∧
      pd.nomor = Json.str "081234567890" := by
  obtain ⟨pd, hpd⟩ :
      ∃ pd, parse_api_response (.obj [("msisdn", .str "6281234567890")]) "k" "p" = some pd :=
    ⟨_, rfl⟩
  refine ⟨pd, hpd, ?_⟩
  rw [C9_msisdn_normalization [("msisdn", .str "6281234567890")] "k" "p" "6281234567890"
    rfl pd hpd]
  rfl

/-- C10 counterexample: a response object carrying "statusinfo": null (with no
Services entry at all) makes parse_api_response raise, because
`response_json.get("statusinfo", {})` returns None and the following
`status_info.get(...)` fails; so the function does not return an outcome for
every object whose Services entries are objects. -/
theorem C10_counterexample :
    parse_api_response (.obj [("statusinfo", Json.null)]) "k" "p" = none := rfl

/-- Helper: a survivable Services field yields a concrete service list, which
is empty whenever the field is absent or null. -/
theorem servicesList_ok (fields : List (String × Json))
    (hsv : servicesFieldOk fields = true) :
    ∃ services, servicesList fields = some services ∧
      services.all serviceEntryOk = true ∧
      ((lookupField fields "Services" = none ∨
        lookupField fields "Services" = some Json.null) → services = []) := by
  by_cases ht : pyTruthy (jGetD fields "Services" (.arr [])) = true
  · unfold servicesFieldOk at hsv
    cases hl : lookupField fields "Services" with
    | none =>
      rw [show jGetD fields "Services" (.arr []) = .arr [] from by simp [jGetD, hl]] at ht
      simp [pyTruthy] at ht
    | some sv =>
      have hj : jGetD fields "Services" (.arr []) = sv := by simp [jGetD, hl]
      rw [hl] at hsv
      rw [hj] at ht
      cases sv with
      | arr xs =>
        refine ⟨xs, ?_, ?_, fun h => ?_⟩
        · simp only [servicesList, hj, ht, if_true]
        · exact hsv
        · exfalso
          rcases h with h | h
          · exact Option.noConfusion h
          · injection h with h3
            exact Json.noConfusion h3
      | null => exact absurd ht (by simp [pyTruthy])
      | str z =>
        have hsv2 : (!pyTruthy (Json.str z)) = true := hsv
        rw [ht] at hsv2
        exact absurd hsv2 (by simp)
      | num n =>
        have hsv2 : (!pyTruthy (Json.num n)) = true := hsv
        rw [ht] at hsv2
        exact absurd hsv2 (by simp)
      | bool b =>
        have hsv2 : (!pyTruthy (Json.bool b)) = true := hsv
        rw [ht] at hsv2
        exact absurd hsv2 (by simp)
      | obj fs =>
        have hsv2 : (!pyTruthy (Json.obj fs)) = true := hsv
        rw [ht] at hsv2
        exact absurd hsv2 (by simp)
  · have hf : pyTruthy (jGetD fields "Services" (.arr [])) = false := by
      simpa using ht
    exact ⟨[], by simp [servicesList, hf], rfl, fun _ => rfl⟩

/-- Helper: a survivable statusinfo field is an object after defaulting. -/
theorem statusinfo_ok (fields : List (String × Json))
    (hsi : statusinfoFieldOk fields = true) :
    ∃ sfields, jGetD fields "statusinfo" (.obj []) = .obj sfields := by
  cases hl : lookupField fields "statusinfo" with
  | none => exact ⟨[], by simp [jGetD, hl]⟩
  | some sv =>
    cases sv
    case obj sf => exact ⟨sf, by simp [jGetD, hl]⟩
    all_goals
      (exfalso
       unfold statusinfoFieldOk at hsi
       rw [hl] at hsi
       exact Bool.false_ne_true hsi)

/-- Helper: the service loop never raises on survivable entries. -/
theorem foldServices_total (ik ip : String) (xs : List Json) :
    ∀ acc, xs.all serviceEntryOk = true → ∃ a, foldServices ik ip acc xs = some a := by
  induction xs with
  | nil => exact fun acc _ => ⟨acc, rfl⟩
  | cons x rest ih =>
    intro acc hall
    rw [List.all_cons, Bool.and_eq_true] at hall
    obtain ⟨hx, hrest⟩ := hall
    obtain ⟨a1, ha1⟩ : ∃ a1, stepService ik ip acc x = some a1 := by
      cases x with
      | obj sf =>
        have hx2 : packagenameOk sf = true := hx
        unfold packagenameOk at hx2
        show ∃ a1, stepFields ik ip acc sf = some a1
        unfold stepFields
        cases hpn : jGetD sf "packagename" (.str "") with
        | str pn => exact ⟨_, rfl⟩
        | null => rw [hpn] at hx2; exact absurd hx2 (by simp)
        | num n => rw [hpn] at hx2; exact absurd hx2 (by simp)
        | bool b => rw [hpn] at hx2; exact absurd hx2 (by simp)
        | arr ys => rw [hpn] at hx2; exact absurd hx2 (by simp)
        | obj o => rw [hpn] at hx2; exact absurd hx2 (by simp)
      | null => exact absurd hx (by simp [serviceEntryOk])
      | str z => exact absurd hx (by simp [serviceEntryOk])
      | num n => exact absurd hx (by simp [serviceEntryOk])
      | bool b => exact absurd hx (by simp [serviceEntryOk])
      | arr ys => exact absurd hx (by simp [serviceEntryOk])
    obtain ⟨a2, ha2⟩ := ih a1 hrest
    exact ⟨a2, by simp [foldServices, ha1, ha2]⟩

/-- C10 amended: parse_api_response returns an outcome without raising for
every JSON response object whose Services field is absent, null or otherwise
falsy, or an array of objects with string (or absent) packagename, and whose
statusinfo field is absent or an object; an absent-or-null Services list
leaves all card and package fields null, an absent custbalanceinfo yields
balance "0", and a non-string msisdn is passed through unnormalized. (A
present null statusinfo, by contrast, raises: see the counterexample.) -/
theorem C10_parse_robust (fields : List (String × Json)) (ik ip : String)
    (hsv : servicesFieldOk fields = true) (hsi : statusinfoFieldOk fields = true) :
    ∃ pd, parse_api_response (.obj fields) ik ip = some pd ∧
      ((lookupField fields "Services" = none ∨
        lookupField fields "Services" = some Json.null) →
        pd.kartu = none ∧ pd.act_kartu = none ∧ pd.end_kartu = none ∧
        pd.paket = none ∧ pd.act_paket = none ∧ pd.end_paket = none) ∧
      (lookupField fields "custbalanceinfo" = none → pd.balance = .str "0") ∧
      (∀ j, lookupField fields "msisdn" = some j → (∀ z, j ≠ .str z) →
        pd.nomor = j) := by
  obtain ⟨services, hsl, hall, hnil⟩ := servicesList_ok fields hsv
  obtain ⟨sfields, hsf⟩ := statusinfo_ok fields hsi
  obtain ⟨acc, hacc⟩ := foldServices_total ik ip services ⟨none, none, none, none, none, none⟩ hall
  refine ⟨{ nomor := normalizeMsisdn (jGetD fields "msisdn" (.str "")),
            kartu := acc.kartu, act_kartu := acc.act_kartu, end_kartu := acc.end_kartu,
            paket := acc.paket, act_paket := acc.act_paket, end_paket := acc.end_paket,
            balance := jGetD fields "custbalanceinfo" (.str "0"),
            expiry_date := jGetD sfields "expirydate" (.str ""),
            activation_date := jGetD sfields "activationdate" (.str ""),
            status_info := .obj sfields }, ?_, fun h => ?_, fun h => ?_, fun j hm hns => ?_⟩
  · simp [parse_api_response, parse_fields, hsl, hacc, hsf]
  · have hserv0 : services = [] := hnil h
    subst hserv0
    have hacc0 : acc = ⟨none, none, none, none, none, none⟩ :=
      (Option.some.injEq _ _).mp hacc.symm
    subst hacc0
    exact ⟨rfl, rfl, rfl, rfl, rfl, rfl⟩
  · simp [jGetD, h]
  · have hj : jGetD fields "msisdn" (.str "") = j := by simp [jGetD, hm]
    show normalizeMsisdn (jGetD fields "msisdn" (.str "")) = j
    rw [hj]
    cases j with
    | str z => exact absurd rfl (hns z)
    | null => rfl
    | num n => rfl
    | bool b => rfl
    | arr ys => rfl
    | obj o => rfl

/-- Witness for C10 amended: an object whose only field is a numeric msisdn
parses successfully with balance "0" and all card and package fields null. -/
theorem C10_parse_robust_witness :
    ∃ pd, parse_api_response (.obj [("msisdn", Json.num 5)]) "k" "p" = some pd ∧
      pd.balance = .str "0" ∧ pd.kartu = none ∧ pd.nomor = Json.num 5 := by
  obtain ⟨pd, h1, h2, h3, h4⟩ := C10_parse_robust [("msisdn", Json.num 5)] "k" "p" rfl rfl
  refine ⟨pd, h1, h3 rfl, (h2 (Or.inl rfl)).1, h4 (Json.num 5) rfl ?_⟩
  intro z hz
  exact Json.noConfusion hz

/-! ## Witnesses for claims C2 and C3 -/

/-- Witness for C2: the sample group "D1" holds exactly one valid success, and
its first record's final status is "SUKSES PROFIT". -/
theorem C2_final_status_rule_witness : lrW1.final = "SUKSES PROFIT" :=
  (C2_final_status_rule rowsW "D1" lrW1 (by decide) (by decide)).1 (by decide)

/-- Witness for C3: the two labeled sample records share destination "D1" and
carry the identical final status. -/
theorem C3_broadcast_witness : lrW1.final = lrW2.final :=
  C3_broadcast rowsW lrW1 lrW2 (by decide) (by decide) (by decide)

end Rekap
